import Mathlib

/-!
Shallow embedding of the Slack-to-JIRA ticketing workflow
(`src/src/state.py`, `src/src/tools.py`, `src/src/nodes.py`, `src/src/graph.py`)
together with proofs of the frozen specification claims.

The LangGraph engine is modelled as a deterministic step function over a
configuration holding the current node, the accumulated `GraphState`, the
shared mock JIRA client, and an index into a stream of `random.random()`
draws.  The three LLM calls (extraction, completeness assessment, inference)
are external collaborators and are modelled as oracle functions supplied in
an environment `Env`.  The `failure_rate` argument that `get_jira_client`
receives at the create stage is also kept in `Env` (the code as wired passes
the default `0.0`; the evaluation scenarios of the spec configure it).
Python exceptions (subscripting `None`) are modelled with `Except`.
-/

namespace Ticketing

/-! ### String primitives

Python string operations (`in`, `strip`, `split`, `startswith`, `lower`,
`join`) re-implemented structurally over `List Char` so that the kernel can
evaluate them on concrete inputs. -/

/-- Whether `pat` is a prefix of the second list (Python `startswith`). -/
def listIsPre : List Char → List Char → Bool
  | [], _ => true
  | _ :: _, [] => false
  | a :: as, b :: bs => a == b && listIsPre as bs

/-- Whether `pat` occurs as a contiguous sublist (Python `pat in s`). -/
def listContainsSub (pat : List Char) : List Char → Bool
  | [] => listIsPre pat []
  | c :: cs => listIsPre pat (c :: cs) || listContainsSub pat cs

/-- Python `pat in s` on strings. -/
def containsSubstr (s pat : String) : Bool := listContainsSub pat.data s.data

/-- Python `s.startswith(pat)` on strings. -/
def startsWithStr (s pat : String) : Bool := listIsPre pat.data s.data

/-- Whitespace characters removed by Python `str.strip()`. -/
def isPySpace (c : Char) : Bool :=
  c == ' ' || c == '\t' || c == '\n' || c == '\r' || c == '\x0b' || c == '\x0c'

/-- Drop leading whitespace. -/
def dropLeadingSpaces : List Char → List Char
  | [] => []
  | c :: cs => if isPySpace c then dropLeadingSpaces cs else c :: cs

/-- Python `s.strip()`. -/
def pyStrip (s : String) : String :=
  String.mk ((dropLeadingSpaces (dropLeadingSpaces s.data).reverse).reverse)

/-- Python `s.lower()` (ASCII, which is all the source ever feeds it). -/
def pyLower (s : String) : String := String.mk (s.data.map Char.toLower)

/-- Python `s.split(sep)` on lists of characters, fuelled by the length of
the list so that the recursion is structural. -/
def splitOnListAux (pat : List Char) : Nat → List Char → List (List Char)
  | _, [] => [[]]
  | 0, l => [l]
  | fuel + 1, c :: cs =>
    if !pat.isEmpty && listIsPre pat (c :: cs) then
      [] :: splitOnListAux pat fuel (List.drop (pat.length - 1) cs)
    else
      let r := splitOnListAux pat fuel cs
      (c :: r.headD []) :: r.tail

/-- Python `s.split(sep)` on strings. -/
def pySplit (s pat : String) : List String :=
  (splitOnListAux pat.data s.data.length s.data).map String.mk

/-- Python `sep.join(xs)`. -/
def pyJoin (sep : String) : List String → String
  | [] => ""
  | [x] => x
  | x :: y :: rest => x ++ sep ++ pyJoin sep (y :: rest)

/-! ### Data model (`src/src/state.py`) -/

/-- `TicketInfo` from `state.py`: extracted ticket information. -/
structure TicketInfo where
  title : String
  description : String
  labels : List String
deriving DecidableEq

/-- `GraphState` from `state.py`: the accumulating workflow state. -/
structure GraphState where
  raw_message : String
  channel : String
  source : String
  is_valid_source : Bool
  ticket_info : Option TicketInfo
  is_complete : Bool
  inference_attempts : Nat
  jira_ticket_id : Option String
  jira_ticket_url : Option String
  retry_count : Nat
  error_message : Option String
  final_response : String
deriving DecidableEq

/-- A partial state update as returned by a LangGraph node: for each key of
`GraphState`, either absent (`none`) or present with a value (for keys whose
value is itself optional, a present `None` is `some none`). -/
structure Update where
  raw_message : Option String
  channel : Option String
  source : Option String
  is_valid_source : Option Bool
  ticket_info : Option (Option TicketInfo)
  is_complete : Option Bool
  inference_attempts : Option Nat
  jira_ticket_id : Option (Option String)
  jira_ticket_url : Option (Option String)
  retry_count : Option Nat
  error_message : Option (Option String)
  final_response : Option String
deriving DecidableEq

/-- The empty update: no keys present. -/
def emptyUpd : Update :=
  ⟨none, none, none, none, none, none, none, none, none, none, none, none⟩

/-- LangGraph's merge of a node's returned dict into the accumulated state:
each key present in the update overwrites the state's value, each absent key
keeps its previous value (`dict.update` semantics, cf. `eval.py` lines
89-94). -/
def merge (s : GraphState) (u : Update) : GraphState where
  raw_message := u.raw_message.getD s.raw_message
  channel := u.channel.getD s.channel
  source := u.source.getD s.source
  is_valid_source := u.is_valid_source.getD s.is_valid_source
  ticket_info := u.ticket_info.getD s.ticket_info
  is_complete := u.is_complete.getD s.is_complete
  inference_attempts := u.inference_attempts.getD s.inference_attempts
  jira_ticket_id := u.jira_ticket_id.getD s.jira_ticket_id
  jira_ticket_url := u.jira_ticket_url.getD s.jira_ticket_url
  retry_count := u.retry_count.getD s.retry_count
  error_message := u.error_message.getD s.error_message
  final_response := u.final_response.getD s.final_response

/-! ### Mock Slack client (`src/src/tools.py`) -/

/-- Result of `MockSlackClient.validate_message`. -/
structure Validation where
  is_valid : Bool
  source : String
  channel_valid : Bool
  source_valid : Bool
deriving DecidableEq

/-- `MockSlackClient.validate_message` from `tools.py`: a message is a
Datadog message iff it carries one of the four markers, and the channel must
be exactly `servicecore-mobile-errors`. -/
def validate_message (message channel : String) : Validation :=
  let is_datadog :=
    containsSubstr message "Triggered:" ||
    containsSubstr message "@issue.id:" ||
    containsSubstr (pyLower message) "RUM errors" ||
    containsSubstr message "@slack-ServiceCore"
  let is_valid_channel := channel == "servicecore-mobile-errors"
  { is_valid := is_datadog && is_valid_channel
    source := if is_datadog then "datadog" else "unknown"
    channel_valid := is_valid_channel
    source_valid := is_datadog }

/-- Components produced by `MockSlackClient.parse_datadog_message`. -/
structure ParsedMessage where
  issue_id : String
  error_message : String
  stack_trace : String
  condition : String
  raw : String
deriving DecidableEq

/-- Accumulator of the line loop in `parse_datadog_message`. -/
structure ParseAcc where
  error_message : String
  stack_trace_lines : List String
  condition_line : String
  in_stack_trace : Bool
deriving DecidableEq

/-- One iteration of the line loop in `parse_datadog_message`. -/
def parseStep (acc : ParseAcc) (line0 : String) : ParseAcc :=
  let line := pyStrip line0
  if line == "" then acc
  else if startsWithStr line "at " || startsWithStr line "  at " then
    { acc with in_stack_trace := true
               stack_trace_lines := acc.stack_trace_lines ++ [line] }
  else if containsSubstr line "was >" || containsSubstr line "during the last" then
    { acc with condition_line := line }
  else if !acc.in_stack_trace && !startsWithStr line "@slack-" then
    if acc.error_message == "" then { acc with error_message := line }
    else if containsSubstr line ":" && acc.stack_trace_lines.isEmpty then
      { acc with error_message := line }
    else acc
  else acc

/-- `MockSlackClient.parse_datadog_message` from `tools.py`. -/
def parse_datadog_message (message : String) : ParsedMessage :=
  let lines := pySplit (pyStrip message) "\n"
  let first := lines.headD ""
  let issue_id :=
    if containsSubstr first "@issue.id:" then
      pyStrip ((pySplit first "@issue.id:").getLastD "")
    else ""
  let acc := (lines.drop 1).foldl parseStep ⟨"", [], "", false⟩
  { issue_id := issue_id
    error_message := acc.error_message
    stack_trace := pyJoin "\n" (acc.stack_trace_lines.take 20)
    condition := acc.condition_line
    raw := message }

/-! ### Mock JIRA client (`src/src/tools.py`) -/

/-- `JiraTicket` from `tools.py`. -/
structure JiraTicket where
  id : String
  key : String
  url : String
  title : String
  description : String
  labels : List String
  project : String
  status : String
deriving DecidableEq

/-- `MockJiraClient` from `tools.py`: registry of tickets keyed by ticket
key, a failure probability, and the ticket counter. -/
structure MockJiraClient where
  tickets : List (String × JiraTicket)
  failure_rate : ℚ
  ticket_counter : Nat
deriving DecidableEq

/-- Outcome of `MockJiraClient.create_ticket`. -/
inductive CreateResult where
  | success (ticket_id ticket_key ticket_url : String)
  | failure (error : String)
deriving DecidableEq

/-- `MockJiraClient.create_ticket` from `tools.py`.  The draw of
`random.random()` is passed in as `r` (a rational in `[0, 1)`); the call
fails exactly when `r < failure_rate`.  On success the counter is bumped,
the key is `project ++ "-" ++ counter`, and the ticket is stored in the
registry. -/
def MockJiraClient.create_ticket (c : MockJiraClient) (r : ℚ)
    (project title description : String) (labels : List String)
    (issue_type : String) : MockJiraClient × CreateResult :=
  if r < c.failure_rate then
    (c, CreateResult.failure "JIRA API temporarily unavailable")
  else
    let counter := c.ticket_counter + 1
    let ticket_id := toString counter
    let ticket_key := project ++ "-" ++ ticket_id
    let ticket_url := "https://jira.example.com/browse/" ++ ticket_key
    let ticket : JiraTicket :=
      { id := ticket_id, key := ticket_key, url := ticket_url
        title := title, description := description, labels := labels
        project := project, status := "Open" }
    ({ tickets := (ticket_key, ticket) :: c.tickets
       failure_rate := c.failure_rate
       ticket_counter := counter },
     CreateResult.success ticket_id ticket_key ticket_url)

/-- `MockJiraClient.get_ticket` from `tools.py`. -/
def MockJiraClient.get_ticket (c : MockJiraClient) (ticket_key : String) :
    Option JiraTicket :=
  List.lookup ticket_key c.tickets

/-- Result of `MockJiraClient.verify_ticket_exists`. -/
structure VerifyResult where
  exists_ : Bool
  ticket : Option JiraTicket
deriving DecidableEq

/-- `MockJiraClient.verify_ticket_exists` from `tools.py`. -/
def MockJiraClient.verify_ticket_exists (c : MockJiraClient)
    (ticket_key : String) : VerifyResult :=
  let t := c.get_ticket ticket_key
  { exists_ := t.isSome, ticket := t }

/-- `get_jira_client` from `tools.py`: returns the shared client after
setting its `failure_rate` to the given argument (the call sites in
`nodes.py` pass no argument, so the Python default `0.0` applies there). -/
def get_jira_client (c : MockJiraClient) (failure_rate : ℚ) : MockJiraClient :=
  { c with failure_rate := failure_rate }

/-! ### Engine environment -/

/-- External collaborators of a run: the three LLM operations of the content
analyzer, the stream of `random.random()` draws consumed by
`create_ticket`, and the `failure_rate` argument handed to
`get_jira_client` at the create stage (`0` in the code as wired, configured
otherwise by the spec's failure scenarios). -/
structure Env where
  extractLLM : ParsedMessage → TicketInfo
  assessLLM : TicketInfo → Bool
  inferLLM : String → String → List String → String → TicketInfo
  rand : Nat → ℚ
  createFailureRate : ℚ

/-! ### Node functions (`src/src/nodes.py`) -/

/-- Python truthiness of an optional string (`None` and `""` are falsy). -/
def truthyStr : Option String → Bool
  | none => false
  | some s => !(s == "")

/-- `validate_source` from `nodes.py`. -/
def validate_source_upd (s : GraphState) : Update :=
  let v := validate_message s.raw_message s.channel
  { emptyUpd with is_valid_source := some v.is_valid, source := some v.source }

/-- `extract_ticket_info` from `nodes.py`: parse the message, then obtain
structured ticket info from the extraction LLM. -/
def extract_ticket_info_upd (env : Env) (s : GraphState) : Update :=
  let parsed := parse_datadog_message s.raw_message
  let ti := env.extractLLM parsed
  { emptyUpd with ticket_info := some (some ti) }

/-- `check_completeness` from `nodes.py`.  The boolean of the pair records
whether the completeness LLM (the analyzer's assess operation) was invoked:
with `ticket_info = None` the node returns `{is_complete: False}` before the
LLM call is reached. -/
def check_completeness_upd (env : Env) (s : GraphState) : Update × Bool :=
  match s.ticket_info with
  | none => ({ emptyUpd with is_complete := some false }, false)
  | some ti => ({ emptyUpd with is_complete := some (env.assessLLM ti) }, true)

/-- `infer_missing_info` from `nodes.py`: bump `inference_attempts` by one
and replace `ticket_info` with the inference LLM's output. -/
def infer_missing_info_upd (env : Env) (s : GraphState) : Update :=
  let attempts := s.inference_attempts + 1
  let ti := env.inferLLM
    (match s.ticket_info with | some t => t.title | none => "")
    (match s.ticket_info with | some t => t.description | none => "")
    (match s.ticket_info with | some t => t.labels | none => [])
    s.raw_message
  { emptyUpd with ticket_info := some (some ti)
                  inference_attempts := some attempts }

/-- `create_jira_ticket` from `nodes.py`, after the `get_jira_client` call
and the backoff pause: calls the store with project `MOBILE` and issue type
`Bug`.  With `ticket_info = None` Python raises while building the call's
arguments (`ticket_info["title"]`), modelled as `Except.error`.  On success
the update sets id and url, clears `error_message` and repeats the
unchanged `retry_count`; on failure it records the store's error text and
increments `retry_count`. -/
def create_jira_ticket_upd (client : MockJiraClient) (r : ℚ)
    (s : GraphState) : Except String (Update × MockJiraClient) :=
  match s.ticket_info with
  | none => Except.error "TypeError: NoneType object is not subscriptable"
  | some ti =>
    match client.create_ticket r "MOBILE" ti.title ti.description
      ti.labels "Bug" with
    | (client2, CreateResult.success _ ticket_key ticket_url) =>
        Except.ok
          ({ emptyUpd with jira_ticket_id := some (some ticket_key)
                           jira_ticket_url := some (some ticket_url)
                           error_message := some none
                           retry_count := some s.retry_count },
           client2)
    | (client2, CreateResult.failure err) =>
        Except.ok
          ({ emptyUpd with error_message := some (some err)
                           retry_count := some (s.retry_count + 1) },
           client2)

/-- `verify_ticket` from `nodes.py`: look the created key up in the store;
clear `error_message` when it exists, otherwise record the fixed
verification-failure text.  (`state["jira_ticket_id"]` may be `None`, which
`dict.get` tolerates and which is simply not found.) -/
def verify_ticket_upd (client : MockJiraClient) (s : GraphState) : Update :=
  let res := match s.jira_ticket_id with
    | some k => client.verify_ticket_exists k
    | none => { exists_ := false, ticket := none }
  if res.exists_ then { emptyUpd with error_message := some none }
  else { emptyUpd with
           error_message := some (some "Ticket verification failed - ticket not found") }

/-- `format_response` from `nodes.py`.  Python truthiness decides the
branches; the success branch subscripts `ticket_info`, raising when it is
`None`. -/
def format_response_upd (s : GraphState) : Except String Update :=
  if truthyStr s.error_message then
    Except.ok { emptyUpd with
      final_response := some ("Failed to create ticket: " ++ s.error_message.getD "") }
  else if truthyStr s.jira_ticket_id && truthyStr s.jira_ticket_url then
    match s.ticket_info with
    | none => Except.error "TypeError: NoneType object is not subscriptable"
    | some ti =>
      Except.ok { emptyUpd with
        final_response := some
          ("JIRA ticket created successfully!\n\nTicket: " ++
           (s.jira_ticket_id.getD "") ++ "\nURL: " ++
           (s.jira_ticket_url.getD "") ++ "\nTitle: " ++ ti.title ++
           "\nLabels: " ++ pyJoin ", " ti.labels) }
  else
    Except.ok { emptyUpd with
      final_response := some "Unknown error occurred during ticket creation." }

/-- `handle_invalid_source` from `nodes.py`: set the rejection response and
`error_message = "Invalid source"`. -/
def handle_invalid_source_upd (s : GraphState) : Update :=
  { emptyUpd with
    final_response := some
      ("Message rejected: Source '" ++
       (s.source ++
        ("' from channel '" ++
         (s.channel ++
          "' is not valid. Only Datadog messages from 'servicecore-mobile-errors' channel are processed."))))
    error_message := some (some "Invalid source") }

/-! ### Routing and graph wiring (`src/src/graph.py`) -/

/-- `MAX_INFERENCE_ATTEMPTS` from `graph.py`. -/
def MAX_INFERENCE_ATTEMPTS : Nat := 2

/-- `MAX_JIRA_RETRIES` from `graph.py`. -/
def MAX_JIRA_RETRIES : Nat := 5

/-- The graph's nodes, plus the end-of-run marker (`END`) and a sink for a
propagated Python exception. -/
inductive Node where
  | validate_source
  | extract_ticket_info
  | check_completeness
  | infer_missing_info
  | create_jira_ticket
  | verify_ticket
  | format_response
  | handle_invalid_source
  | terminal
  | crashed
deriving DecidableEq

/-- `route_after_validation` from `graph.py`. -/
def route_after_validation (s : GraphState) : Node :=
  if s.is_valid_source then Node.extract_ticket_info
  else Node.handle_invalid_source

/-- `route_after_completeness` from `graph.py`. -/
def route_after_completeness (s : GraphState) : Node :=
  if s.is_complete then Node.create_jira_ticket
  else if s.inference_attempts < MAX_INFERENCE_ATTEMPTS then
    Node.infer_missing_info
  else Node.create_jira_ticket

/-- `route_after_jira_create` from `graph.py` (`state.get("jira_ticket_id")`
is tested for Python truthiness). -/
def route_after_jira_create (s : GraphState) : Node :=
  if s.error_message.isNone && truthyStr s.jira_ticket_id then
    Node.verify_ticket
  else if s.retry_count < MAX_JIRA_RETRIES then Node.create_jira_ticket
  else Node.format_response

/-- A configuration of a run: current node, accumulated state, the shared
JIRA client, the index of the next `random.random()` draw, the list of
executed nodes, and the list of performed backoff pauses (in time units). -/
structure Config where
  node : Node
  state : GraphState
  jira : MockJiraClient
  randIdx : Nat
  log : List Node
  sleeps : List Nat
deriving DecidableEq

/-- One engine step as wired in `build_graph`: execute the current node,
merge its partial update into the state, and follow the (conditional) edge
out of the node.  `handle_invalid_source` and `format_response` are wired
to `END`; a raised exception moves to the absorbing `crashed` sink. -/
def step (env : Env) (c : Config) : Config :=
  match c.node with
  | Node.validate_source =>
      let s2 := merge c.state (validate_source_upd c.state)
      { node := route_after_validation s2, state := s2, jira := c.jira
        randIdx := c.randIdx, log := c.log ++ [Node.validate_source]
        sleeps := c.sleeps }
  | Node.extract_ticket_info =>
      let s2 := merge c.state (extract_ticket_info_upd env c.state)
      { node := Node.check_completeness, state := s2, jira := c.jira
        randIdx := c.randIdx, log := c.log ++ [Node.extract_ticket_info]
        sleeps := c.sleeps }
  | Node.check_completeness =>
      let s2 := merge c.state (check_completeness_upd env c.state).1
      { node := route_after_completeness s2, state := s2, jira := c.jira
        randIdx := c.randIdx, log := c.log ++ [Node.check_completeness]
        sleeps := c.sleeps }
  | Node.infer_missing_info =>
      let s2 := merge c.state (infer_missing_info_upd env c.state)
      { node := Node.check_completeness, state := s2, jira := c.jira
        randIdx := c.randIdx, log := c.log ++ [Node.infer_missing_info]
        sleeps := c.sleeps }
  | Node.create_jira_ticket =>
      let client := get_jira_client c.jira env.createFailureRate
      let newSleeps :=
        if 0 < c.state.retry_count then
          c.sleeps ++ [min (2 ^ c.state.retry_count) 5]
        else c.sleeps
      match create_jira_ticket_upd client (env.rand c.randIdx) c.state with
      | Except.error _ =>
          { node := Node.crashed, state := c.state, jira := client
            randIdx := c.randIdx, log := c.log ++ [Node.create_jira_ticket]
            sleeps := newSleeps }
      | Except.ok (u, jira2) =>
          let s2 := merge c.state u
          { node := route_after_jira_create s2, state := s2, jira := jira2
            randIdx := c.randIdx + 1, log := c.log ++ [Node.create_jira_ticket]
            sleeps := newSleeps }
  | Node.verify_ticket =>
      let client := get_jira_client c.jira 0
      let s2 := merge c.state (verify_ticket_upd client c.state)
      { node := Node.format_response, state := s2, jira := client
        randIdx := c.randIdx, log := c.log ++ [Node.verify_ticket]
        sleeps := c.sleeps }
  | Node.format_response =>
      match format_response_upd c.state with
      | Except.error _ =>
          { node := Node.crashed, state := c.state, jira := c.jira
            randIdx := c.randIdx, log := c.log ++ [Node.format_response]
            sleeps := c.sleeps }
      | Except.ok u =>
          { node := Node.terminal, state := merge c.state u, jira := c.jira
            randIdx := c.randIdx, log := c.log ++ [Node.format_response]
            sleeps := c.sleeps }
  | Node.handle_invalid_source =>
      let s2 := merge c.state (handle_invalid_source_upd c.state)
      { node := Node.terminal, state := s2, jira := c.jira
        randIdx := c.randIdx, log := c.log ++ [Node.handle_invalid_source]
        sleeps := c.sleeps }
  | Node.terminal => c
  | Node.crashed => c

/-- The update produced by the node about to run in a configuration (the
exact dict each stage hands back to the engine for merging; an exception or
a sink node contributes the empty update). -/
def nodeUpdate (env : Env) (c : Config) : Update :=
  match c.node with
  | Node.validate_source => validate_source_upd c.state
  | Node.extract_ticket_info => extract_ticket_info_upd env c.state
  | Node.check_completeness => (check_completeness_upd env c.state).1
  | Node.infer_missing_info => infer_missing_info_upd env c.state
  | Node.create_jira_ticket =>
      match create_jira_ticket_upd (get_jira_client c.jira env.createFailureRate)
        (env.rand c.randIdx) c.state with
      | Except.ok (u, _) => u
      | Except.error _ => emptyUpd
  | Node.verify_ticket => verify_ticket_upd (get_jira_client c.jira 0) c.state
  | Node.format_response =>
      match format_response_upd c.state with
      | Except.ok u => u
      | Except.error _ => emptyUpd
  | Node.handle_invalid_source => handle_invalid_source_upd c.state
  | Node.terminal => emptyUpd
  | Node.crashed => emptyUpd

/-- The initial `GraphState` built in `main.py` / `eval.py`. -/
def initState (message channel : String) : GraphState :=
  { raw_message := message, channel := channel, source := ""
    is_valid_source := false, ticket_info := none, is_complete := false
    inference_attempts := 0, jira_ticket_id := none, jira_ticket_url := none
    retry_count := 0, error_message := none, final_response := "" }

/-- A run starts at the graph's entry point `validate_source`. -/
def initConfig (message channel : String) (jira : MockJiraClient) : Config :=
  { node := Node.validate_source, state := initState message channel
    jira := jira, randIdx := 0, log := [], sleeps := [] }

/-- A freshly constructed `MockJiraClient()` (the module-level shared
instance in `tools.py`). -/
def freshJira : MockJiraClient :=
  { tickets := [], failure_rate := 0, ticket_counter := 1000 }

/-- `n` engine steps (stepping a finished run leaves it unchanged). -/
def run (env : Env) : Nat → Config → Config
  | 0, c => c
  | n + 1, c => step env (run env n c)

/-- The configurations a run can pass through. -/
inductive Reachable (env : Env) (c0 : Config) : Config → Prop where
  | refl : Reachable env c0 c0
  | tail {c : Config} : Reachable env c0 c → Reachable env c0 (step env c)

/-! ### Concrete inputs and environments used by the evaluation scenarios -/

/-- A concrete structured-LLM output (title, description, default labels). -/
def tiA : TicketInfo :=
  { title := "Crash in vendor.js", description := "TypeError details"
    labels := ["bug", "mobile"] }

/-- A message carrying Datadog markers (Scenario A shape). -/
def msgA : String := "Triggered: High number of errors on @issue.id:e1266418"

/-- The monitored channel. -/
def chA : String := "servicecore-mobile-errors"

/-- A plain chat message without Datadog markers. -/
def msgB : String := "hello team"

/-- A non-monitored channel. -/
def chB : String := "general"

/-- Deterministic collaborators, store wired as in the code
(`get_jira_client()` with the default `failure_rate = 0.0`); every
`random.random()` draw is `0`. -/
def envC : Env :=
  { extractLLM := fun _ => tiA, assessLLM := fun _ => true
    inferLLM := fun _ _ _ _ => tiA, rand := fun _ => 0
    createFailureRate := 0 }

/-- Scenario E: the ticket store fails every creation attempt
(`failure_rate = 1`, every draw `0 < 1`). -/
def envFailAll : Env :=
  { extractLLM := fun _ => tiA, assessLLM := fun _ => true
    inferLLM := fun _ _ _ _ => tiA, rand := fun _ => 0
    createFailureRate := 1 }

/-- Scenario D: the store fails the first two creation attempts (draws `0`)
and then succeeds (draws `1`, and `1 < 1` is false). -/
def envD : Env :=
  { extractLLM := fun _ => tiA, assessLLM := fun _ => true
    inferLLM := fun _ _ _ _ => tiA
    rand := fun i => if i < 2 then 0 else 1, createFailureRate := 1 }

/-! ### Run invariants -/

/-- The nodes that can only occur before the first `create_jira_ticket`
execution of a run. -/
def FirstPhase (n : Node) : Prop :=
  n = Node.validate_source ∨ n = Node.extract_ticket_info ∨
  n = Node.check_completeness ∨ n = Node.infer_missing_info ∨
  n = Node.handle_invalid_source

/-- Inductive invariant of the engine: bounds on the two counters,
strengthened at the loop entries, and — when about to verify — the created
key is present in the store's registry. -/
def Inv (c : Config) : Prop :=
  c.state.inference_attempts ≤ MAX_INFERENCE_ATTEMPTS ∧
  (c.node = Node.infer_missing_info →
    c.state.inference_attempts < MAX_INFERENCE_ATTEMPTS) ∧
  c.state.retry_count ≤ MAX_JIRA_RETRIES ∧
  (c.node = Node.create_jira_ticket →
    c.state.retry_count < MAX_JIRA_RETRIES) ∧
  (FirstPhase c.node → c.state.retry_count = 0) ∧
  (c.node = Node.verify_ticket → ∃ k, c.state.jira_ticket_id = some k ∧
    (List.lookup k c.jira.tickets).isSome = true)

/-- Invariant of the engine as wired (store never configured to fail): no
retry is ever counted and no backoff pause is ever performed. -/
def NoRetry (c : Config) : Prop :=
  c.state.retry_count = 0 ∧ c.sleeps = []

/-! ### Helper lemmas -/

theorem listIsPre_append (p : List Char) :
    ∀ l r, listIsPre p l = true → listIsPre p (l ++ r) = true := by
  induction p with
  | nil => intro l r _; rfl
  | cons a as ih =>
    intro l r h
    cases l with
    | nil => simp [listIsPre] at h
    | cons b bs =>
      simp only [listIsPre, Bool.and_eq_true] at h
      simp only [List.cons_append, listIsPre, Bool.and_eq_true]
      exact ⟨h.1, ih bs r h.2⟩

theorem listContainsSub_of_pre (p l : List Char)
    (h : listIsPre p l = true) : listContainsSub p l = true := by
  cases l with
  | nil => exact h
  | cons c cs => simp [listContainsSub, h]

theorem containsSubstr_append (a b pat : String)
    (h : listIsPre pat.data a.data = true) :
    containsSubstr (a ++ b) pat = true := by
  unfold containsSubstr
  rw [String.data_append]
  exact listContainsSub_of_pre _ _ (listIsPre_append _ _ _ h)

theorem mobile_append_ne_empty (t : String) : ("MOBILE-" ++ t) ≠ "" := by
  intro h
  have h2 := congrArg String.data h
  rw [String.data_append] at h2
  have h3 : "MOBILE-".data = 'M' :: "OBILE-".data := rfl
  have h4 : "".data = ([] : List Char) := rfl
  rw [h3, h4] at h2
  simp at h2

theorem truthy_mobile (t : String) :
    truthyStr (some ("MOBILE-" ++ t)) = true := by
  simp only [truthyStr, Bool.not_eq_true', beq_eq_false_iff_ne, ne_eq]
  exact mobile_append_ne_empty t

theorem step_of_terminal (env : Env) (c : Config)
    (h : c.node = Node.terminal) : step env c = c := by
  rcases c with ⟨nd, s, j, ri, lg, sl⟩
  cases h
  rfl

theorem step_of_validate (env : Env) (c : Config)
    (h : c.node = Node.validate_source) :
    step env c =
      ⟨route_after_validation (merge c.state (validate_source_upd c.state)),
       merge c.state (validate_source_upd c.state), c.jira, c.randIdx,
       c.log ++ [Node.validate_source], c.sleeps⟩ := by
  rcases c with ⟨nd, s, j, ri, lg, sl⟩
  cases h
  rfl

theorem step_of_handle (env : Env) (c : Config)
    (h : c.node = Node.handle_invalid_source) :
    step env c =
      ⟨Node.terminal, merge c.state (handle_invalid_source_upd c.state),
       c.jira, c.randIdx, c.log ++ [Node.handle_invalid_source], c.sleeps⟩ := by
  rcases c with ⟨nd, s, j, ri, lg, sl⟩
  cases h
  rfl

theorem reachable_run (env : Env) (c0 : Config) (n : Nat) :
    Reachable env c0 (run env n c0) := by
  induction n with
  | zero => exact Reachable.refl
  | succ k ih => exact Reachable.tail ih

theorem merge_frame (s : GraphState) (u : Update) :
    (u.raw_message = none → (merge s u).raw_message = s.raw_message) ∧
    (u.channel = none → (merge s u).channel = s.channel) ∧
    (u.source = none → (merge s u).source = s.source) ∧
    (u.is_valid_source = none →
      (merge s u).is_valid_source = s.is_valid_source) ∧
    (u.ticket_info = none → (merge s u).ticket_info = s.ticket_info) ∧
    (u.is_complete = none → (merge s u).is_complete = s.is_complete) ∧
    (u.inference_attempts = none →
      (merge s u).inference_attempts = s.inference_attempts) ∧
    (u.jira_ticket_id = none →
      (merge s u).jira_ticket_id = s.jira_ticket_id) ∧
    (u.jira_ticket_url = none →
      (merge s u).jira_ticket_url = s.jira_ticket_url) ∧
    (u.retry_count = none → (merge s u).retry_count = s.retry_count) ∧
    (u.error_message = none → (merge s u).error_message = s.error_message) ∧
    (u.final_response = none →
      (merge s u).final_response = s.final_response) := by
  refine ⟨?_, ?_, ?_, ?_, ?_, ?_, ?_, ?_, ?_, ?_, ?_, ?_⟩ <;>
    intro h <;> simp [merge, h]

theorem truthy_append_of_ne (a b : String) (ha : a.data ≠ []) :
    truthyStr (some (a ++ b)) = true := by
  simp only [truthyStr, Bool.not_eq_true', beq_eq_false_iff_ne, ne_eq]
  intro h
  have h2 := congrArg String.data h
  rw [String.data_append] at h2
  have h4 : "".data = ([] : List Char) := rfl
  rw [h4] at h2
  exact ha (List.append_eq_nil.mp h2).1

theorem format_upd_frame (s : GraphState) (u : Update)
    (h : format_response_upd s = Except.ok u) :
    u.inference_attempts = none ∧ u.retry_count = none ∧
    u.jira_ticket_id = none ∧ u.ticket_info = none := by
  unfold format_response_upd at h
  split_ifs at h
  · injection h with h'; subst h'; simp [emptyUpd]
  · rcases hti : s.ticket_info with _ | ti <;> rw [hti] at h
    · cases h
    · injection h with h'; subst h'; simp [emptyUpd]
  · injection h with h'; subst h'; simp [emptyUpd]

theorem inv_init (msg ch : String) (jira0 : MockJiraClient) :
    Inv (initConfig msg ch jira0) := by
  refine ⟨?_, ?_, ?_, ?_, ?_, ?_⟩ <;>
    simp [initConfig, initState, MAX_INFERENCE_ATTEMPTS, MAX_JIRA_RETRIES]

theorem inv_step (env : Env) (c : Config) (h : Inv c) : Inv (step env c) := by
  obtain ⟨h1, h2, h3, h4, h5, h6⟩ := h
  rcases c with ⟨nd, s, j, ri, lg, sl⟩
  dsimp only at h1 h2 h3 h4 h5 h6
  cases nd
  case terminal => exact ⟨h1, h2, h3, h4, h5, h6⟩
  case crashed => exact ⟨h1, h2, h3, h4, h5, h6⟩
  case validate_source =>
    have hretry : s.retry_count = 0 := h5 (Or.inl rfl)
    simp only [step]
    have hroute : route_after_validation (merge s (validate_source_upd s)) =
        Node.extract_ticket_info ∨
        route_after_validation (merge s (validate_source_upd s)) =
        Node.handle_invalid_source := by
      unfold route_after_validation; split <;> simp
    have hsa : (merge s (validate_source_upd s)).inference_attempts =
        s.inference_attempts := by simp [merge, validate_source_upd, emptyUpd]
    have hsr : (merge s (validate_source_upd s)).retry_count =
        s.retry_count := by simp [merge, validate_source_upd, emptyUpd]
    refine ⟨?_, ?_, ?_, ?_, ?_, ?_⟩
    · simpa [hsa] using h1
    · intro hr; rcases hroute with h' | h' <;> simp [h'] at hr
    · simpa [hsr] using h3
    · intro hr; rcases hroute with h' | h' <;> simp [h'] at hr
    · intro _; simp [hsr, hretry]
    · intro hr; rcases hroute with h' | h' <;> simp [h'] at hr
  case extract_ticket_info =>
    have hretry : s.retry_count = 0 := h5 (Or.inr (Or.inl rfl))
    simp only [step]
    have hsa : (merge s (extract_ticket_info_upd env s)).inference_attempts =
        s.inference_attempts := by
      simp [merge, extract_ticket_info_upd, emptyUpd]
    have hsr : (merge s (extract_ticket_info_upd env s)).retry_count =
        s.retry_count := by simp [merge, extract_ticket_info_upd, emptyUpd]
    refine ⟨?_, ?_, ?_, ?_, ?_, ?_⟩
    · simpa [hsa] using h1
    · intro hr; simp at hr
    · simpa [hsr] using h3
    · intro hr; simp at hr
    · intro _; simp [hsr, hretry]
    · intro hr; simp at hr
  case check_completeness =>
    have hretry : s.retry_count = 0 := h5 (Or.inr (Or.inr (Or.inl rfl)))
    simp only [step]
    have hsa : (merge s (check_completeness_upd env s).1).inference_attempts =
        s.inference_attempts := by
      rcases hti : s.ticket_info with _ | ti <;>
        simp [merge, check_completeness_upd, hti, emptyUpd]
    have hsr : (merge s (check_completeness_upd env s).1).retry_count =
        s.retry_count := by
      rcases hti : s.ticket_info with _ | ti <;>
        simp [merge, check_completeness_upd, hti, emptyUpd]
    have hroute :
        route_after_completeness (merge s (check_completeness_upd env s).1) =
          Node.create_jira_ticket ∨
        (route_after_completeness (merge s (check_completeness_upd env s).1) =
          Node.infer_missing_info ∧
         (merge s (check_completeness_upd env s).1).inference_attempts <
          MAX_INFERENCE_ATTEMPTS) := by
      unfold route_after_completeness
      split
      · exact Or.inl rfl
      · split
        · exact Or.inr ⟨rfl, by assumption⟩
        · exact Or.inl rfl
    refine ⟨?_, ?_, ?_, ?_, ?_, ?_⟩
    · simpa [hsa] using h1
    · intro hr
      rcases hroute with h' | ⟨h', hlt⟩
      · rw [h'] at hr; simp at hr
      · exact hlt
    · simpa [hsr] using h3
    · intro _
      rw [hsr, hretry]
      decide
    · intro _; simp [hsr, hretry]
    · intro hr
      rcases hroute with h' | ⟨h', _⟩ <;> (rw [h'] at hr; simp at hr)
  case infer_missing_info =>
    have hlt : s.inference_attempts < MAX_INFERENCE_ATTEMPTS := h2 rfl
    have hretry : s.retry_count = 0 :=
      h5 (Or.inr (Or.inr (Or.inr (Or.inl rfl))))
    simp only [step]
    have hsa : (merge s (infer_missing_info_upd env s)).inference_attempts =
        s.inference_attempts + 1 := by
      simp [merge, infer_missing_info_upd, emptyUpd]
    have hsr : (merge s (infer_missing_info_upd env s)).retry_count =
        s.retry_count := by simp [merge, infer_missing_info_upd, emptyUpd]
    refine ⟨?_, ?_, ?_, ?_, ?_, ?_⟩
    · rw [hsa]; omega
    · intro hr; simp at hr
    · simpa [hsr] using h3
    · intro hr; simp at hr
    · intro _; simp [hsr, hretry]
    · intro hr; simp at hr
  case verify_ticket =>
    simp only [step]
    have hu : (verify_ticket_upd (get_jira_client j 0) s).inference_attempts =
        none ∧ (verify_ticket_upd (get_jira_client j 0) s).retry_count =
        none := by
      unfold verify_ticket_upd
      split <;> (dsimp only; split <;> simp [emptyUpd])
    have hsa := (merge_frame s (verify_ticket_upd (get_jira_client j 0) s)).2.2.2.2.2.2.1 hu.1
    have hsr := (merge_frame s (verify_ticket_upd (get_jira_client j 0) s)).2.2.2.2.2.2.2.2.2.1 hu.2
    refine ⟨?_, ?_, ?_, ?_, ?_, ?_⟩
    · simpa [hsa] using h1
    · intro hr; simp at hr
    · simpa [hsr] using h3
    · intro hr; simp at hr
    · intro hf; simp [FirstPhase] at hf
    · intro hr; simp at hr
  case format_response =>
    simp only [step]
    rcases hfu : format_response_upd s with e | u
    · simp only [hfu]
      refine ⟨h1, ?_, h3, ?_, ?_, ?_⟩
      · intro hr; simp at hr
      · intro hr; simp at hr
      · intro hf; simp [FirstPhase] at hf
      · intro hr; simp at hr
    · simp only [hfu]
      obtain ⟨hua, hur, _, _⟩ := format_upd_frame s u hfu
      have hsa := (merge_frame s u).2.2.2.2.2.2.1 hua
      have hsr := (merge_frame s u).2.2.2.2.2.2.2.2.2.1 hur
      refine ⟨?_, ?_, ?_, ?_, ?_, ?_⟩
      · simpa [hsa] using h1
      · intro hr; simp at hr
      · simpa [hsr] using h3
      · intro hr; simp at hr
      · intro hf; simp [FirstPhase] at hf
      · intro hr; simp at hr
  case handle_invalid_source =>
    simp only [step]
    have hsa : (merge s (handle_invalid_source_upd s)).inference_attempts =
        s.inference_attempts := by
      simp [merge, handle_invalid_source_upd, emptyUpd]
    have hsr : (merge s (handle_invalid_source_upd s)).retry_count =
        s.retry_count := by simp [merge, handle_invalid_source_upd, emptyUpd]
    refine ⟨?_, ?_, ?_, ?_, ?_, ?_⟩
    · simpa [hsa] using h1
    · intro hr; simp at hr
    · simpa [hsr] using h3
    · intro hr; simp at hr
    · intro hf; simp [FirstPhase] at hf
    · intro hr; simp at hr
  case create_jira_ticket =>
    have hlt : s.retry_count < MAX_JIRA_RETRIES := h4 rfl
    simp only [step]
    rcases hti : s.ticket_info with _ | ti
    · simp only [create_jira_ticket_upd, hti]
      refine ⟨h1, ?_, h3, ?_, ?_, ?_⟩
      · intro hr; simp at hr
      · intro hr; simp at hr
      · intro hf; simp [FirstPhase] at hf
      · intro hr; simp at hr
    · simp only [create_jira_ticket_upd, hti]
      by_cases hr :
          env.rand ri < (get_jira_client j env.createFailureRate).failure_rate
      · simp only [MockJiraClient.create_ticket, if_pos hr]
        have hs2e : (merge s { emptyUpd with
            error_message := some (some "JIRA API temporarily unavailable")
            retry_count := some (s.retry_count + 1) }).error_message =
            some "JIRA API temporarily unavailable" := by
          simp [merge, emptyUpd]
        have hs2r : (merge s { emptyUpd with
            error_message := some (some "JIRA API temporarily unavailable")
            retry_count := some (s.retry_count + 1) }).retry_count =
            s.retry_count + 1 := by simp [merge, emptyUpd]
        have hs2a : (merge s { emptyUpd with
            error_message := some (some "JIRA API temporarily unavailable")
            retry_count := some (s.retry_count + 1) }).inference_attempts =
            s.inference_attempts := by simp [merge, emptyUpd]
        have hroute : (route_after_jira_create (merge s { emptyUpd with
            error_message := some (some "JIRA API temporarily unavailable")
            retry_count := some (s.retry_count + 1) }) =
              Node.create_jira_ticket ∧
             s.retry_count + 1 < MAX_JIRA_RETRIES) ∨
            (route_after_jira_create (merge s { emptyUpd with
              error_message := some (some "JIRA API temporarily unavailable")
              retry_count := some (s.retry_count + 1) }) =
              Node.format_response ∧
             ¬ s.retry_count + 1 < MAX_JIRA_RETRIES) := by
          unfold route_after_jira_create
          rw [hs2e, hs2r]
          simp only [Option.isNone_some, Bool.false_and, Bool.false_eq_true,
            if_false]
          split
          · exact Or.inl ⟨rfl, by assumption⟩
          · exact Or.inr ⟨rfl, by assumption⟩
        refine ⟨?_, ?_, ?_, ?_, ?_, ?_⟩
        · simpa [hs2a] using h1
        · intro hx
          rcases hroute with ⟨h', _⟩ | ⟨h', _⟩ <;> (rw [h'] at hx; simp at hx)
        · rw [hs2r]; omega
        · intro hx
          rcases hroute with ⟨h', hc⟩ | ⟨h', _⟩
          · rw [hs2r]; exact hc
          · rw [h'] at hx; simp at hx
        · intro hf
          rcases hroute with ⟨h', _⟩ | ⟨h', _⟩ <;>
            (rw [h'] at hf; simp [FirstPhase] at hf)
        · intro hx
          rcases hroute with ⟨h', _⟩ | ⟨h', _⟩ <;> (rw [h'] at hx; simp at hx)
      · simp only [MockJiraClient.create_ticket, if_neg hr]
        have hs2e : ∀ key url, (merge s { emptyUpd with
            jira_ticket_id := some (some key)
            jira_ticket_url := some (some url)
            error_message := some none
            retry_count := some s.retry_count }).error_message = none := by
          intro key url; simp [merge, emptyUpd]
        have hs2i : ∀ key url, (merge s { emptyUpd with
            jira_ticket_id := some (some key)
            jira_ticket_url := some (some url)
            error_message := some none
            retry_count := some s.retry_count }).jira_ticket_id =
            some key := by
          intro key url; simp [merge, emptyUpd]
        have hs2r : ∀ key url, (merge s { emptyUpd with
            jira_ticket_id := some (some key)
            jira_ticket_url := some (some url)
            error_message := some none
            retry_count := some s.retry_count }).retry_count =
            s.retry_count := by intro key url; simp [merge, emptyUpd]
        have hs2a : ∀ key url, (merge s { emptyUpd with
            jira_ticket_id := some (some key)
            jira_ticket_url := some (some url)
            error_message := some none
            retry_count := some s.retry_count }).inference_attempts =
            s.inference_attempts := by intro key url; simp [merge, emptyUpd]
        have hroute : ∀ t url, route_after_jira_create (merge s { emptyUpd with
            jira_ticket_id := some (some (("MOBILE" ++ "-") ++ t))
            jira_ticket_url := some (some url)
            error_message := some none
            retry_count := some s.retry_count }) = Node.verify_ticket := by
          intro t url
          unfold route_after_jira_create
          rw [hs2e, hs2i]
          simp [truthy_mobile]
        refine ⟨?_, ?_, ?_, ?_, ?_, ?_⟩
        · simpa [hs2a] using h1
        · intro hx; rw [hroute] at hx; simp at hx
        · rw [hs2r]; omega
        · intro hx; rw [hroute] at hx; simp at hx
        · intro hf; rw [hroute] at hf; simp [FirstPhase] at hf
        · intro _
          refine ⟨("MOBILE" ++ "-") ++
            toString ((get_jira_client j env.createFailureRate).ticket_counter + 1),
            hs2i _ _, ?_⟩
          simp [List.lookup]

theorem inv_reachable (env : Env) (msg ch : String) (jira0 : MockJiraClient)
    (c : Config) (h : Reachable env (initConfig msg ch jira0) c) : Inv c := by
  induction h with
  | refl => exact inv_init msg ch jira0
  | tail _ ih => exact inv_step env _ ih

theorem noretry_init (msg ch : String) (jira0 : MockJiraClient) :
    NoRetry (initConfig msg ch jira0) := ⟨rfl, rfl⟩

theorem noretry_step (env : Env) (hfr : env.createFailureRate = 0)
    (hrand : ∀ i, 0 ≤ env.rand i) (c : Config) (h : NoRetry c) :
    NoRetry (step env c) := by
  obtain ⟨h1, h2⟩ := h
  rcases c with ⟨nd, s, j, ri, lg, sl⟩
  dsimp only at h1 h2
  subst h2
  cases nd
  case terminal => exact ⟨h1, rfl⟩
  case crashed => exact ⟨h1, rfl⟩
  case validate_source =>
    exact ⟨by simp [step, merge, validate_source_upd, emptyUpd, h1], rfl⟩
  case extract_ticket_info =>
    exact ⟨by simp [step, merge, extract_ticket_info_upd, emptyUpd, h1], rfl⟩
  case check_completeness =>
    refine ⟨?_, rfl⟩
    rcases hti : s.ticket_info with _ | ti <;>
      simp [step, merge, check_completeness_upd, hti, emptyUpd, h1]
  case infer_missing_info =>
    exact ⟨by simp [step, merge, infer_missing_info_upd, emptyUpd, h1], rfl⟩
  case handle_invalid_source =>
    exact ⟨by simp [step, merge, handle_invalid_source_upd, emptyUpd, h1], rfl⟩
  case verify_ticket =>
    refine ⟨?_, rfl⟩
    have hu : (verify_ticket_upd (get_jira_client j 0) s).retry_count =
        none := by
      unfold verify_ticket_upd
      split <;> (dsimp only; split <;> simp [emptyUpd])
    have := (merge_frame s
      (verify_ticket_upd (get_jira_client j 0) s)).2.2.2.2.2.2.2.2.2.1 hu
    simp only [step]
    rw [this, h1]
  case format_response =>
    simp only [step]
    rcases hfu : format_response_upd s with e | u
    · exact ⟨h1, rfl⟩
    · obtain ⟨_, hur, _, _⟩ := format_upd_frame s u hfu
      have := (merge_frame s u).2.2.2.2.2.2.2.2.2.1 hur
      exact ⟨by rw [this, h1], rfl⟩
  case create_jira_ticket =>
    have hnr : ¬ env.rand ri <
        (get_jira_client j env.createFailureRate).failure_rate := by
      have : (get_jira_client j env.createFailureRate).failure_rate =
          env.createFailureRate := rfl
      rw [this, hfr]
      exact not_lt.mpr (hrand ri)
    simp only [step]
    rcases hti : s.ticket_info with _ | ti
    · simp only [create_jira_ticket_upd, hti]
      exact ⟨h1, by rw [h1]; simp⟩
    · simp only [create_jira_ticket_upd, hti,
        MockJiraClient.create_ticket, if_neg hnr]
      refine ⟨?_, by rw [h1]; simp⟩
      simp [merge, emptyUpd, h1]

theorem step_verify_clears_error (env : Env) (c : Config) (hinv : Inv c)
    (hnode : c.node = Node.verify_ticket) :
    (step env c).state.error_message = none := by
  obtain ⟨_, _, _, _, _, h6⟩ := hinv
  rcases c with ⟨nd, s, j, ri, lg, sl⟩
  dsimp only at h6 hnode
  subst hnode
  obtain ⟨k, hk, hlook⟩ := h6 rfl
  simp only [step]
  simp [verify_ticket_upd, hk, MockJiraClient.verify_ticket_exists,
    MockJiraClient.get_ticket, get_jira_client, hlook, merge, emptyUpd]

theorem step_create_give_up (env : Env) (c : Config) (hinv : Inv c)
    (hnode : c.node = Node.create_jira_ticket)
    (hfmt : (step env c).node = Node.format_response) :
    (step env c).state.retry_count = MAX_JIRA_RETRIES ∧
    (step env c).state.error_message ≠ none := by
  obtain ⟨_, _, _, h4, _, _⟩ := hinv
  rcases c with ⟨nd, s, j, ri, lg, sl⟩
  dsimp only at h4 hnode
  subst hnode
  have hlt : s.retry_count < MAX_JIRA_RETRIES := h4 rfl
  simp only [step] at hfmt ⊢
  rcases hti : s.ticket_info with _ | ti
  · rw [create_jira_ticket_upd] at hfmt
    rw [hti] at hfmt
    simp at hfmt
  · simp only [create_jira_ticket_upd, hti] at hfmt ⊢
    by_cases hr : env.rand ri <
        (get_jira_client j env.createFailureRate).failure_rate
    · simp only [MockJiraClient.create_ticket, if_pos hr] at hfmt ⊢
      have hs2e : (merge s { emptyUpd with
          error_message := some (some "JIRA API temporarily unavailable")
          retry_count := some (s.retry_count + 1) }).error_message =
          some "JIRA API temporarily unavailable" := by
        simp [merge, emptyUpd]
      have hs2r : (merge s { emptyUpd with
          error_message := some (some "JIRA API temporarily unavailable")
          retry_count := some (s.retry_count + 1) }).retry_count =
          s.retry_count + 1 := by simp [merge, emptyUpd]
      by_cases hrc : s.retry_count + 1 < MAX_JIRA_RETRIES
      · exfalso
        unfold route_after_jira_create at hfmt
        rw [hs2e, hs2r] at hfmt
        simp [hrc] at hfmt
      · exact ⟨by rw [hs2r]; omega, by rw [hs2e]; simp⟩
    · exfalso
      simp only [MockJiraClient.create_ticket, if_neg hr] at hfmt
      have hs2e : (merge s { emptyUpd with
          jira_ticket_id := some (some (("MOBILE" ++ "-") ++
            toString ((get_jira_client j env.createFailureRate).ticket_counter + 1)))
          jira_ticket_url := some (some ("https://jira.example.com/browse/" ++
            (("MOBILE" ++ "-") ++
             toString ((get_jira_client j env.createFailureRate).ticket_counter + 1))))
          error_message := some none
          retry_count := some s.retry_count }).error_message = none := by
        simp [merge, emptyUpd]
      have hs2i : (merge s { emptyUpd with
          jira_ticket_id := some (some (("MOBILE" ++ "-") ++
            toString ((get_jira_client j env.createFailureRate).ticket_counter + 1)))
          jira_ticket_url := some (some ("https://jira.example.com/browse/" ++
            (("MOBILE" ++ "-") ++
             toString ((get_jira_client j env.createFailureRate).ticket_counter + 1))))
          error_message := some none
          retry_count := some s.retry_count }).jira_ticket_id =
          some (("MOBILE" ++ "-") ++
            toString ((get_jira_client j env.createFailureRate).ticket_counter + 1)) := by
        simp [merge, emptyUpd]
      unfold route_after_jira_create at hfmt
      rw [hs2e, hs2i] at hfmt
      simp [truthy_mobile] at hfmt

/-! ### The claims -/

/-- C2: whenever the engine gives up on CreateTicket — it routes from
`create_jira_ticket` to `format_response`, with an error still set — the
`retry_count` equals `MAX_JIRA_RETRIES` (5) exactly; and in the scenario in
which the store fails every creation attempt (`envFailAll`), the run still
terminates normally with the store's last error text inside
`final_response` and `jira_ticket_id = none`. -/
theorem c2_retry_bound_on_give_up :
    (∀ (env : Env) (msg ch : String) (jira0 : MockJiraClient) (c : Config),
      Reachable env (initConfig msg ch jira0) c →
      c.node = Node.create_jira_ticket →
      (step env c).node = Node.format_response →
      (step env c).state.retry_count = MAX_JIRA_RETRIES ∧
      (step env c).state.error_message ≠ none) ∧
    ((run envFailAll 12 (initConfig msgA chA freshJira)).node =
        Node.terminal ∧
     (run envFailAll 12 (initConfig msgA chA freshJira)).state.retry_count =
        MAX_JIRA_RETRIES ∧
     containsSubstr
       (run envFailAll 12 (initConfig msgA chA freshJira)).state.final_response
       "JIRA API temporarily unavailable" = true ∧
     (run envFailAll 12 (initConfig msgA chA freshJira)).state.jira_ticket_id
       = none) := by
  constructor
  · intro env msg ch jira0 c hreach hnode hfmt
    exact step_create_give_up env c
      (inv_reachable env msg ch jira0 c hreach) hnode hfmt
  · exact ⟨by decide, by decide, by decide, by decide⟩

/-- C2 witness: at the concrete give-up point of the always-failing run
(the sixth `create_jira_ticket` execution), the retry count is exactly 5. -/
theorem c2_retry_bound_on_give_up_witness :
    (step envFailAll (run envFailAll 7 (initConfig msgA chA freshJira))).state.retry_count
      = MAX_JIRA_RETRIES :=
  (c2_retry_bound_on_give_up.1 envFailAll msgA chA freshJira
    (run envFailAll 7 (initConfig msgA chA freshJira))
    (reachable_run envFailAll (initConfig msgA chA freshJira) 7)
    (by decide) (by decide)).1

/-- C3: `MAX_INFERENCE_ATTEMPTS` is 2; each invocation of the inference
stage increases `inference_attempts` by exactly 1, unconditionally; and at
every reachable point where `create_jira_ticket` is entered,
`inference_attempts` is at most `MAX_INFERENCE_ATTEMPTS`. -/
theorem c3_inference_bound :
    MAX_INFERENCE_ATTEMPTS = 2 ∧
    (∀ (env : Env) (s : GraphState),
      (merge s (infer_missing_info_upd env s)).inference_attempts =
        s.inference_attempts + 1) ∧
    (∀ (env : Env) (msg ch : String) (jira0 : MockJiraClient) (c : Config),
      Reachable env (initConfig msg ch jira0) c →
      c.node = Node.create_jira_ticket →
      c.state.inference_attempts ≤ MAX_INFERENCE_ATTEMPTS) := by
  refine ⟨rfl, ?_, ?_⟩
  · intro env s
    simp [merge, infer_missing_info_upd, emptyUpd]
  · intro env msg ch jira0 c hreach _
    exact (inv_reachable env msg ch jira0 c hreach).1

/-- C3 witness: at the configuration of the always-failing run that is
about to execute `create_jira_ticket`, the inference counter is within the
bound, and one concrete inference invocation bumps the counter from 0 to
1. -/
theorem c3_inference_bound_witness :
    (merge (initState msgA chA)
      (infer_missing_info_upd envC (initState msgA chA))).inference_attempts
      = 1 ∧
    (run envFailAll 3 (initConfig msgA chA freshJira)).state.inference_attempts
      ≤ MAX_INFERENCE_ATTEMPTS :=
  ⟨c3_inference_bound.2.1 envC (initState msgA chA),
   c3_inference_bound.2.2 envFailAll msgA chA freshJira
     (run envFailAll 3 (initConfig msgA chA freshJira))
     (reachable_run envFailAll (initConfig msgA chA freshJira) 3)
     (by decide)⟩

/-- C4: for every stage function and every prior configuration, merging the
stage's returned partial update changes only the keys present in that
update — every key absent from the update keeps its exact previous value. -/
theorem c4_merge_frame_law (env : Env) (c : Config) :
    ((nodeUpdate env c).raw_message = none →
      (merge c.state (nodeUpdate env c)).raw_message = c.state.raw_message) ∧
    ((nodeUpdate env c).channel = none →
      (merge c.state (nodeUpdate env c)).channel = c.state.channel) ∧
    ((nodeUpdate env c).source = none →
      (merge c.state (nodeUpdate env c)).source = c.state.source) ∧
    ((nodeUpdate env c).is_valid_source = none →
      (merge c.state (nodeUpdate env c)).is_valid_source =
        c.state.is_valid_source) ∧
    ((nodeUpdate env c).ticket_info = none →
      (merge c.state (nodeUpdate env c)).ticket_info = c.state.ticket_info) ∧
    ((nodeUpdate env c).is_complete = none →
      (merge c.state (nodeUpdate env c)).is_complete = c.state.is_complete) ∧
    ((nodeUpdate env c).inference_attempts = none →
      (merge c.state (nodeUpdate env c)).inference_attempts =
        c.state.inference_attempts) ∧
    ((nodeUpdate env c).jira_ticket_id = none →
      (merge c.state (nodeUpdate env c)).jira_ticket_id =
        c.state.jira_ticket_id) ∧
    ((nodeUpdate env c).jira_ticket_url = none →
      (merge c.state (nodeUpdate env c)).jira_ticket_url =
        c.state.jira_ticket_url) ∧
    ((nodeUpdate env c).retry_count = none →
      (merge c.state (nodeUpdate env c)).retry_count =
        c.state.retry_count) ∧
    ((nodeUpdate env c).error_message = none →
      (merge c.state (nodeUpdate env c)).error_message =
        c.state.error_message) ∧
    ((nodeUpdate env c).final_response = none →
      (merge c.state (nodeUpdate env c)).final_response =
        c.state.final_response) :=
  merge_frame c.state (nodeUpdate env c)

/-- C4 witness: for the concrete validation stage of a run, the keys absent
from the returned update (here `raw_message`) are unchanged by the merge. -/
theorem c4_merge_frame_law_witness :
    (merge (initConfig msgB chB freshJira).state
      (nodeUpdate envC (initConfig msgB chB freshJira))).raw_message =
      (initConfig msgB chB freshJira).state.raw_message :=
  (c4_merge_frame_law envC (initConfig msgB chB freshJira)).1 (by decide)

/-- C6: when the CreateTicket stage runs on a state with ticket info and
the store's create succeeds (the draw is not below `failure_rate`), the
merged result sets `jira_ticket_id` and `jira_ticket_url`, clears
`error_message`, and leaves `retry_count` unchanged; when the create fails,
the merged result records the store's error text, increments `retry_count`
by exactly 1, and leaves `jira_ticket_id` and `jira_ticket_url`
unchanged. -/
theorem c6_create_stage_effects (client : MockJiraClient) (r : ℚ)
    (s : GraphState) (ti : TicketInfo) (hti : s.ticket_info = some ti) :
    (¬ r < client.failure_rate →
      ∃ u jira2 key url,
        create_jira_ticket_upd client r s = Except.ok (u, jira2) ∧
        (merge s u).jira_ticket_id = some key ∧
        (merge s u).jira_ticket_url = some url ∧
        (merge s u).error_message = none ∧
        (merge s u).retry_count = s.retry_count) ∧
    (r < client.failure_rate →
      ∃ u jira2,
        create_jira_ticket_upd client r s = Except.ok (u, jira2) ∧
        (merge s u).error_message =
          some "JIRA API temporarily unavailable" ∧
        (merge s u).retry_count = s.retry_count + 1 ∧
        (merge s u).jira_ticket_id = s.jira_ticket_id ∧
        (merge s u).jira_ticket_url = s.jira_ticket_url) := by
  constructor
  · intro hr
    simp only [create_jira_ticket_upd, hti, MockJiraClient.create_ticket,
      if_neg hr]
    refine ⟨_, _, "MOBILE-" ++ toString (client.ticket_counter + 1),
      "https://jira.example.com/browse/" ++
        ("MOBILE-" ++ toString (client.ticket_counter + 1)),
      rfl, ?_, ?_, ?_, ?_⟩ <;> simp [merge, emptyUpd]
  · intro hr
    simp only [create_jira_ticket_upd, hti, MockJiraClient.create_ticket,
      if_pos hr]
    exact ⟨_, _, rfl, by simp [merge, emptyUpd], by simp [merge, emptyUpd],
      by simp [merge, emptyUpd], by simp [merge, emptyUpd]⟩

/-- C6 witness: both branches instantiated on a concrete state and store
(a fresh store that succeeds for draw `0`, and one with `failure_rate = 1`
that fails for draw `0`). -/
theorem c6_create_stage_effects_witness :
    (∃ u jira2 key url,
      create_jira_ticket_upd freshJira 0
        (merge (initState msgA chA)
          { emptyUpd with ticket_info := some (some tiA) }) =
        Except.ok (u, jira2) ∧
      (merge (merge (initState msgA chA)
          { emptyUpd with ticket_info := some (some tiA) }) u).jira_ticket_id
        = some key ∧
      (merge (merge (initState msgA chA)
          { emptyUpd with ticket_info := some (some tiA) }) u).jira_ticket_url
        = some url ∧
      (merge (merge (initState msgA chA)
          { emptyUpd with ticket_info := some (some tiA) }) u).error_message
        = none ∧
      (merge (merge (initState msgA chA)
          { emptyUpd with ticket_info := some (some tiA) }) u).retry_count
        = (merge (initState msgA chA)
            { emptyUpd with ticket_info := some (some tiA) }).retry_count) ∧
    (∃ u jira2,
      create_jira_ticket_upd { freshJira with failure_rate := 1 } 0
        (merge (initState msgA chA)
          { emptyUpd with ticket_info := some (some tiA) }) =
        Except.ok (u, jira2) ∧
      (merge (merge (initState msgA chA)
          { emptyUpd with ticket_info := some (some tiA) }) u).error_message
        = some "JIRA API temporarily unavailable" ∧
      (merge (merge (initState msgA chA)
          { emptyUpd with ticket_info := some (some tiA) }) u).retry_count
        = (merge (initState msgA chA)
            { emptyUpd with ticket_info := some (some tiA) }).retry_count + 1 ∧
      (merge (merge (initState msgA chA)
          { emptyUpd with ticket_info := some (some tiA) }) u).jira_ticket_id
        = (merge (initState msgA chA)
            { emptyUpd with ticket_info := some (some tiA) }).jira_ticket_id ∧
      (merge (merge (initState msgA chA)
          { emptyUpd with ticket_info := some (some tiA) }) u).jira_ticket_url
        = (merge (initState msgA chA)
            { emptyUpd with ticket_info := some (some tiA) }).jira_ticket_url) :=
  ⟨(c6_create_stage_effects freshJira 0
      (merge (initState msgA chA)
        { emptyUpd with ticket_info := some (some tiA) }) tiA rfl).1
      (by decide),
   (c6_create_stage_effects { freshJira with failure_rate := 1 } 0
      (merge (initState msgA chA)
        { emptyUpd with ticket_info := some (some tiA) }) tiA rfl).2
      (by decide)⟩

/-- C7: when the completeness stage runs with `ticket_info = None` it
returns `is_complete = false` immediately, without invoking the analyzer's
assess operation (the second component of the pair records whether the
assess LLM was invoked); the assess operation is reached only when
`ticket_info` is non-null. -/
theorem c7_completeness_null_guard (env : Env) (s : GraphState) :
    (s.ticket_info = none →
      check_completeness_upd env s =
        ({ emptyUpd with is_complete := some false }, false)) ∧
    ((check_completeness_upd env s).2 = true → s.ticket_info ≠ none) := by
  constructor
  · intro h
    simp [check_completeness_upd, h]
  · intro h hn
    simp [check_completeness_upd, hn] at h

/-- C7 witness: on the initial state (whose `ticket_info` is null) the
stage returns `is_complete = false` without calling the analyzer. -/
theorem c7_completeness_null_guard_witness :
    check_completeness_upd envC (initState msgA chA) =
      ({ emptyUpd with is_complete := some false }, false) :=
  (c7_completeness_null_guard envC (initState msgA chA)).1 rfl

/-- C8: at every CreateTicket invocation with `retry_count = 0` no pause is
performed, and with `retry_count = n > 0` the performed pause is exactly
`min (2 ^ n) 5` time units; in the scenario whose first two create attempts
fail and whose third succeeds (`envD`), the run pauses exactly 2 and then 4
time units. -/
theorem c8_backoff_pause :
    (∀ (env : Env) (c : Config), c.node = Node.create_jira_ticket →
      ((c.state.retry_count = 0 → (step env c).sleeps = c.sleeps) ∧
       (0 < c.state.retry_count →
         (step env c).sleeps =
           c.sleeps ++ [min (2 ^ c.state.retry_count) 5]))) ∧
    ((run envD 10 (initConfig msgA chA freshJira)).sleeps = [2, 4] ∧
     (run envD 10 (initConfig msgA chA freshJira)).state.retry_count = 2 ∧
     (run envD 10 (initConfig msgA chA freshJira)).state.jira_ticket_id.isSome
       = true ∧
     (run envD 10 (initConfig msgA chA freshJira)).node = Node.terminal) := by
  constructor
  · intro env c hnode
    rcases c with ⟨nd, s, j, ri, lg, sl⟩
    dsimp only at hnode ⊢
    subst hnode
    simp only [step]
    constructor
    · intro h0
      rcases hres : create_jira_ticket_upd
          (get_jira_client j env.createFailureRate) (env.rand ri)
          s with e | p
      · simp [hres, h0]
      · rcases p with ⟨u, j2⟩
        simp [hres, h0]
    · intro h0
      rcases hres : create_jira_ticket_upd
          (get_jira_client j env.createFailureRate) (env.rand ri)
          s with e | p
      · simp [hres, h0]
      · rcases p with ⟨u, j2⟩
        simp [hres, h0]
  · exact by decide

/-- C8 witness: the second CreateTicket invocation of the `envD` run has
`retry_count = 1` and performs a pause of exactly `min (2 ^ 1) 5 = 2` time
units. -/
theorem c8_backoff_pause_witness :
    (step envD (run envD 4 (initConfig msgA chA freshJira))).sleeps =
      (run envD 4 (initConfig msgA chA freshJira)).sleeps ++
        [min (2 ^ (run envD 4 (initConfig msgA chA freshJira)).state.retry_count) 5] :=
  (c8_backoff_pause.1 envD (run envD 4 (initConfig msgA chA freshJira))
    (by decide)).2 (by decide)

/-- C9: in the engine as wired every create-stage call path goes through
`get_jira_client()` with the default argument, which resets the shared
client's `failure_rate` to 0; since `create_ticket` fails only when the
draw is below `failure_rate` and every `random.random()` draw is
nonnegative, `create_ticket` never returns failure, so in every reachable
configuration of such a run `retry_count = 0` and no backoff pause was ever
performed. -/
theorem c9_wired_engine_never_retries (env : Env)
    (hfr : env.createFailureRate = 0) (hrand : ∀ i, 0 ≤ env.rand i) :
    (∀ jc : MockJiraClient, (get_jira_client jc 0).failure_rate = 0) ∧
    (∀ (jc : MockJiraClient) (r : ℚ) (p t d : String) (l : List String)
       (ity e : String), 0 ≤ r → jc.failure_rate = 0 →
       (jc.create_ticket r p t d l ity).2 ≠ CreateResult.failure e) ∧
    (∀ (msg ch : String) (jira0 : MockJiraClient) (c : Config),
      Reachable env (initConfig msg ch jira0) c →
      c.state.retry_count = 0 ∧ c.sleeps = []) := by
  refine ⟨fun jc => rfl, ?_, ?_⟩
  · intro jc r p t d l ity e hr h0
    unfold MockJiraClient.create_ticket
    rw [h0, if_neg (not_lt.mpr hr)]
    simp
  · intro msg ch jira0 c hreach
    induction hreach with
    | refl => exact noretry_init msg ch jira0
    | tail _ ih => exact noretry_step env hfr hrand _ ih

/-- C9 witness: the full wired run (`envC`, failure rate 0, all draws 0) on
the valid message terminates, and its terminal configuration has
`retry_count = 0` and an empty pause list. -/
theorem c9_wired_engine_never_retries_witness :
    (run envC 8 (initConfig msgA chA freshJira)).node = Node.terminal ∧
    (run envC 8 (initConfig msgA chA freshJira)).state.retry_count = 0 ∧
    (run envC 8 (initConfig msgA chA freshJira)).sleeps = [] :=
  ⟨by decide,
   (c9_wired_engine_never_retries envC rfl (fun _ => le_refl 0)).2.2
     msgA chA freshJira (run envC 8 (initConfig msgA chA freshJira))
     (reachable_run envC (initConfig msgA chA freshJira) 8) |>.1,
   (c9_wired_engine_never_retries envC rfl (fun _ => le_refl 0)).2.2
     msgA chA freshJira (run envC 8 (initConfig msgA chA freshJira))
     (reachable_run envC (initConfig msgA chA freshJira) 8) |>.2⟩

/-- C10: create-then-verify round trip — every successful `create_ticket`
call returning key `k` is immediately verifiable on the resulting store,
with a record whose title, description, labels and project equal those
passed to create; consequently, in any run, the Verify stage entered after
a successful creation takes the exists-branch and clears `error_message`
(the verification-failed branch is unreachable). -/
theorem c10_create_verify_round_trip :
    (∀ (jc jc2 : MockJiraClient) (r : ℚ) (p t d : String) (l : List String)
       (ity tid key url : String),
      jc.create_ticket r p t d l ity =
        (jc2, CreateResult.success tid key url) →
      ∃ tk : JiraTicket, jc2.verify_ticket_exists key =
          { exists_ := true, ticket := some tk } ∧
        tk.title = t ∧ tk.description = d ∧ tk.labels = l ∧
        tk.project = p) ∧
    (∀ (env : Env) (msg ch : String) (jira0 : MockJiraClient) (c : Config),
      Reachable env (initConfig msg ch jira0) c →
      c.node = Node.verify_ticket →
      (step env c).state.error_message = none) := by
  constructor
  · intro jc jc2 r p t d l ity tid key url h
    unfold MockJiraClient.create_ticket at h
    split_ifs at h with hr
    · simp at h
    · rw [Prod.mk.injEq] at h
      obtain ⟨hjc2, hres⟩ := h
      injection hres with h1 h2 h3
      subst hjc2
      subst h2
      refine ⟨{ id := toString (jc.ticket_counter + 1)
                key := p ++ "-" ++ toString (jc.ticket_counter + 1)
                url := "https://jira.example.com/browse/" ++
                  (p ++ "-" ++ toString (jc.ticket_counter + 1))
                title := t, description := d, labels := l, project := p
                status := "Open" }, ?_, rfl, rfl, rfl, rfl⟩
      simp [MockJiraClient.verify_ticket_exists, MockJiraClient.get_ticket,
        List.lookup]
  · intro env msg ch jira0 c hreach hnode
    exact step_verify_clears_error env c
      (inv_reachable env msg ch jira0 c hreach) hnode

/-- C10 witness: a concrete successful creation on a fresh store is
verifiable with the created fields, and the Verify stage of the concrete
`envD` run clears the error. -/
theorem c10_create_verify_round_trip_witness :
    (∃ tk : JiraTicket,
      (freshJira.create_ticket 0 "MOBILE" "T" "D" ["bug"] "Bug").1.verify_ticket_exists
          "MOBILE-1001" = { exists_ := true, ticket := some tk } ∧
      tk.title = "T" ∧ tk.description = "D" ∧ tk.labels = ["bug"] ∧
      tk.project = "MOBILE") ∧
    (step envD (run envD 6 (initConfig msgA chA freshJira))).state.error_message
      = none :=
  ⟨c10_create_verify_round_trip.1 freshJira
      (freshJira.create_ticket 0 "MOBILE" "T" "D" ["bug"] "Bug").1
      0 "MOBILE" "T" "D" ["bug"] "Bug" "1001" "MOBILE-1001"
      "https://jira.example.com/browse/MOBILE-1001" (by decide),
   c10_create_verify_round_trip.2 envD msgA chA freshJira
     (run envD 6 (initConfig msgA chA freshJira))
     (reachable_run envD (initConfig msgA chA freshJira) 6) (by decide)⟩

/-- C1: for every run whose input makes the source classifier return
`is_valid = false`, the run takes the rejected-source terminal path: every
reachable configuration has executed only `validate_source` and
`handle_invalid_source` (so no extraction, completeness, inference,
creation or verification stage — hence no Content Analyzer or Ticket Store
operation — ever runs), and at the terminal configuration the
`final_response` contains the rejection notice and `jira_ticket_id` is
null. -/
theorem c1_invalid_source_rejected (env : Env) (msg ch : String)
    (jira0 : MockJiraClient)
    (h : (validate_message msg ch).is_valid = false) :
    ∀ c, Reachable env (initConfig msg ch jira0) c →
      (∀ n ∈ c.log,
        n = Node.validate_source ∨ n = Node.handle_invalid_source) ∧
      (c.node = Node.terminal →
        containsSubstr c.state.final_response "Message rejected" = true ∧
        c.state.jira_ticket_id = none) := by
  have hval := step_of_validate env (initConfig msg ch jira0) rfl
  have hroute : route_after_validation
      (merge (initConfig msg ch jira0).state
        (validate_source_upd (initConfig msg ch jira0).state)) =
      Node.handle_invalid_source := by
    unfold route_after_validation
    simp [merge, validate_source_upd, emptyUpd, initConfig, initState, h]
  have hc1node : (step env (initConfig msg ch jira0)).node =
      Node.handle_invalid_source := by rw [hval]; exact hroute
  have hhandle := step_of_handle env (step env (initConfig msg ch jira0))
    hc1node
  have hc2node : (step env (step env (initConfig msg ch jira0))).node =
      Node.terminal := by rw [hhandle]
  have hclosed : ∀ c, Reachable env (initConfig msg ch jira0) c →
      c = initConfig msg ch jira0 ∨
      c = step env (initConfig msg ch jira0) ∨
      c = step env (step env (initConfig msg ch jira0)) := by
    intro c hc
    induction hc with
    | refl => exact Or.inl rfl
    | tail _ ih =>
      rcases ih with h0 | h1 | h2
      · rw [h0]; exact Or.inr (Or.inl rfl)
      · rw [h1]; exact Or.inr (Or.inr rfl)
      · rw [h2, step_of_terminal env _ hc2node]
        exact Or.inr (Or.inr rfl)
  intro c hc
  rcases hclosed c hc with h0 | h1 | h2
  · subst h0
    refine ⟨?_, ?_⟩
    · intro n hn; simp [initConfig] at hn
    · intro hterm; simp [initConfig] at hterm
  · subst h1
    rw [hval]
    refine ⟨?_, ?_⟩
    · intro n hn
      simp [initConfig] at hn
      exact Or.inl hn
    · intro hterm
      rw [hval] at hc1node
      dsimp only at hc1node
      rw [hc1node] at hterm
      simp at hterm
  · subst h2
    rw [hhandle]
    refine ⟨?_, ?_⟩
    · intro n hn
      rw [hval] at hn
      simp [initConfig] at hn
      rcases hn with hn | hn
      · exact Or.inl hn
      · exact Or.inr hn
    · intro _
      constructor
      · have hfr : (merge (step env (initConfig msg ch jira0)).state
            (handle_invalid_source_upd
              (step env (initConfig msg ch jira0)).state)).final_response =
            "Message rejected: Source '" ++
            ((step env (initConfig msg ch jira0)).state.source ++
             ("' from channel '" ++
              ((step env (initConfig msg ch jira0)).state.channel ++
               "' is not valid. Only Datadog messages from 'servicecore-mobile-errors' channel are processed."))) := by
          simp [merge, handle_invalid_source_upd, emptyUpd]
        rw [hfr]
        exact containsSubstr_append _ _ _ (by decide)
      · have hid : (merge (step env (initConfig msg ch jira0)).state
            (handle_invalid_source_upd
              (step env (initConfig msg ch jira0)).state)).jira_ticket_id =
            (step env (initConfig msg ch jira0)).state.jira_ticket_id := by
          simp [merge, handle_invalid_source_upd, emptyUpd]
        rw [hid, hval]
        simp [merge, validate_source_upd, emptyUpd, initConfig, initState]

/-- C1 witness: the run on the plain chat message in the `general` channel
is rejected: no analyzer or store stage in the log, rejection notice in the
final response, null ticket id. -/
theorem c1_invalid_source_rejected_witness :
    (validate_message msgB chB).is_valid = false ∧
    (containsSubstr
       (run envC 3 (initConfig msgB chB freshJira)).state.final_response
       "Message rejected" = true ∧
     (run envC 3 (initConfig msgB chB freshJira)).state.jira_ticket_id =
       none) :=
  ⟨by decide,
   (c1_invalid_source_rejected envC msgB chB freshJira (by decide)
     (run envC 3 (initConfig msgB chB freshJira))
     (reachable_run envC (initConfig msgB chB freshJira) 3)).2 (by decide)⟩

/-- C5 counterexample: on a concrete rejected-source run, the stage after
`handle_invalid_source` is the end of the run (`terminal`), not
`format_response`; the run terminates without `format_response` ever
appearing in the executed-node log — refuting the claim that RejectSource
is followed by the Format stage. -/
theorem c5_reject_then_format_counterexample :
    (step envC (initConfig msgB chB freshJira)).node =
      Node.handle_invalid_source ∧
    (step envC (step envC (initConfig msgB chB freshJira))).node ≠
      Node.format_response ∧
    (step envC (step envC (initConfig msgB chB freshJira))).node =
      Node.terminal ∧
    Node.format_response ∉ (run envC 5 (initConfig msgB chB freshJira)).log ∧
    (run envC 5 (initConfig msgB chB freshJira)).node = Node.terminal := by
  decide

/-- C5 amended: in the state machine as wired (`handle_invalid_source` has
an unconditional edge to `END`), the stage following RejectSource is the
end of the run, not Format; RejectSource itself writes the final response
before the run ends. -/
theorem c5_reject_goes_to_end (env : Env) (c : Config)
    (h : c.node = Node.handle_invalid_source) :
    (step env c).node = Node.terminal ∧
    (step env c).log = c.log ++ [Node.handle_invalid_source] ∧
    (step env c).state.final_response =
      "Message rejected: Source '" ++
      (c.state.source ++
       ("' from channel '" ++
        (c.state.channel ++
         "' is not valid. Only Datadog messages from 'servicecore-mobile-errors' channel are processed."))) := by
  rw [step_of_handle env c h]
  refine ⟨rfl, rfl, ?_⟩
  simp [merge, handle_invalid_source_upd, emptyUpd]

/-- C5 witness: the amended successor fact at the concrete rejected run. -/
theorem c5_reject_goes_to_end_witness :
    (step envC (step envC (initConfig msgB chB freshJira))).node =
      Node.terminal :=
  (c5_reject_goes_to_end envC (step envC (initConfig msgB chB freshJira))
    (by decide)).1

end Ticketing
